import Mathlib

/-!
Verification of the analyzer-bot repository's core logic against its
natural-language specification.  The Python sources are shallowly embedded:
numeric cell values and financial quantities are modelled as rationals,
worksheets as row-major grids of cell values, dictionaries as association
lists, and fallible code as `Option`/`Except`.
-/

/-! ## Fallback risk scorer (src/processors/risk_calculator.py) -/

/-- Embedding of `calculate_risk_score` (risk_calculator.py lines 6-71):
sequential additive rule table, result clamped by `min(100, risk_score)`. -/
def calculate_risk_score (npv irr payback_period debt_share debt_rate
    construction_years discount_rate : ℚ) : ℕ :=
  let risk_score : ℕ := 0
  let risk_score := risk_score +
    (if npv < 0 then 40 else if npv < 50 then 20 else 0)
  let risk_score := risk_score +
    (if irr < discount_rate then 30 else if irr < discount_rate * 1.1 then 15 else 0)
  let risk_score := risk_score +
    (if payback_period > 15 then 30 else if payback_period > 10 then 20 else 0)
  let risk_score := risk_score +
    (if debt_share > 70 then 35 else if debt_share > 50 then 25 else 0)
  let risk_score := risk_score +
    (if debt_rate > 20 then 30 else if debt_rate > 15 then 20 else 0)
  let risk_score := risk_score +
    (if construction_years > 7 then 25 else if construction_years > 5 then 15 else 0)
  let risk_score := risk_score +
    (if discount_rate > 25 then 20 else if discount_rate > 20 then 10 else 0)
  min 100 risk_score

/-- Embedding of `score_to_risk_level` (risk_calculator.py lines 74-91). -/
def score_to_risk_level (risk_score : ℤ) : String :=
  if risk_score ≤ 30 then "Низкий"
  else if risk_score ≤ 60 then "Средний"
  else if risk_score ≤ 85 then "Высокий"
  else "Критический"

/-- Values appearing in the dictionary returned by `calculate_risk_fallback`:
strings, numbers, or lists of strings (the empty `scenarios` list of objects is
modelled as an empty list). -/
inductive FVal where
  | vStr (s : String)
  | vNum (q : ℚ)
  | vList (l : List String)
deriving DecidableEq

/-- Lookup with numeric default 0, modelling Python `dict.get(key, 0)` on the
merged params/results dictionary. -/
def dget (d : List (String × ℚ)) (k : String) : ℚ :=
  (d.lookup k).getD 0

/-- Embedding of `calculate_risk_fallback` (risk_calculator.py lines 94-144).
The returned Python dict literal is modelled as an association list with the
exact six keys the source constructs. -/
def calculate_risk_fallback (project_data : List (String × ℚ)) : List (String × FVal) :=
  let risk_score := calculate_risk_score
    (dget project_data "npv") (dget project_data "irr")
    (dget project_data "payback_period") (dget project_data "debt_share")
    (dget project_data "debt_rate") (dget project_data "construction_years")
    (dget project_data "discount_rate")
  let risk_level := score_to_risk_level (risk_score : ℤ)
  let reason :=
    if risk_level = "Низкий" then
      "Проект демонстрирует хорошие финансовые показатели и низкий уровень рисков."
    else if risk_level = "Средний" then
      "Проект имеет приемлемый уровень рисков, но требует внимательного мониторинга ключевых параметров."
    else if risk_level = "Высокий" then
      "Проект характеризуется высоким уровнем рисков, необходимы меры по их снижению."
    else
      "Проект имеет критический уровень рисков, требует пересмотра параметров или отказа от реализации."
  let critical_factors :=
    (if dget project_data "npv" < 0 then ["Отрицательный NPV"] else []) ++
    (if dget project_data "irr" < dget project_data "discount_rate" then
      ["IRR ниже ставки дисконтирования"] else []) ++
    (if dget project_data "debt_share" > 50 then ["Высокая доля долга"] else []) ++
    (if dget project_data "payback_period" > 10 then ["Долгий срок окупаемости"] else [])
  [("risk_level", FVal.vStr risk_level),
   ("reason", FVal.vStr reason),
   ("critical_factors", FVal.vList
     (if critical_factors ≠ [] then critical_factors else ["Требуется детальный анализ"])),
   ("scenarios", FVal.vList []),
   ("total_potential_losses", FVal.vNum 0),
   ("risk_mitigation", FVal.vList [])]

/-! ## Claim C1 -/

/-- Claim C1: for every 7-tuple of inputs, `calculate_risk_score` is the sum of
the additive rule table (one branch per category) clamped to at most 100; the
adverse inputs (-10, 5, 20, 80, 25, 9, 10) score 100 with level Critical and
the benign inputs (200, 15, 6, 30, 8, 3, 10) score 0 with level Low. -/
theorem c1_score_rule_table :
    (∀ npv irr payback_period debt_share debt_rate construction_years discount_rate : ℚ,
      calculate_risk_score npv irr payback_period debt_share debt_rate
          construction_years discount_rate =
        min 100
          ((if npv < 0 then 40 else if npv < 50 then 20 else 0) +
           (if irr < discount_rate then 30 else if irr < discount_rate * 1.1 then 15 else 0) +
           (if payback_period > 15 then 30 else if payback_period > 10 then 20 else 0) +
           (if debt_share > 70 then 35 else if debt_share > 50 then 25 else 0) +
           (if debt_rate > 20 then 30 else if debt_rate > 15 then 20 else 0) +
           (if construction_years > 7 then 25 else if construction_years > 5 then 15 else 0) +
           (if discount_rate > 25 then 20 else if discount_rate > 20 then 10 else 0)))
    ∧ calculate_risk_score (-10) 5 20 80 25 9 10 = 100
    ∧ score_to_risk_level ((calculate_risk_score (-10) 5 20 80 25 9 10 : ℕ) : ℤ) = "Критический"
    ∧ calculate_risk_score 200 15 6 30 8 3 10 = 0
    ∧ score_to_risk_level ((calculate_risk_score 200 15 6 30 8 3 10 : ℕ) : ℤ) = "Низкий" := by
  refine ⟨fun npv irr pb ds dr cy disc => ?_,
    by norm_num [calculate_risk_score],
    by norm_num [calculate_risk_score, score_to_risk_level],
    by norm_num [calculate_risk_score],
    by norm_num [calculate_risk_score, score_to_risk_level]⟩
  simp only [calculate_risk_score, Nat.zero_add]

/-! ## Claim C6 -/

/-- Claim C6: `score_to_risk_level` is a total step function on integer scores:
scores ≤ 30 map to Low, 31-60 to Medium, 61-85 to High, ≥ 86 to Critical, with
the eight boundary data points. -/
theorem c6_level_buckets :
    (∀ s : ℤ, s ≤ 30 → score_to_risk_level s = "Низкий")
    ∧ (∀ s : ℤ, 31 ≤ s → s ≤ 60 → score_to_risk_level s = "Средний")
    ∧ (∀ s : ℤ, 61 ≤ s → s ≤ 85 → score_to_risk_level s = "Высокий")
    ∧ (∀ s : ℤ, 86 ≤ s → score_to_risk_level s = "Критический")
    ∧ score_to_risk_level 0 = "Низкий" ∧ score_to_risk_level 30 = "Низкий"
    ∧ score_to_risk_level 31 = "Средний" ∧ score_to_risk_level 60 = "Средний"
    ∧ score_to_risk_level 61 = "Высокий" ∧ score_to_risk_level 85 = "Высокий"
    ∧ score_to_risk_level 86 = "Критический" ∧ score_to_risk_level 100 = "Критический" := by
  refine ⟨?_, ?_, ?_, ?_, by decide, by decide, by decide, by decide,
    by decide, by decide, by decide, by decide⟩ <;>
    · intro s
      intros
      simp only [score_to_risk_level]
      split_ifs <;> first | rfl | omega

/-- Witness for C6: the bucket lemmas applied at the concrete score 42. -/
theorem c6_level_buckets_witness :
    (31 : ℤ) ≤ 42 ∧ (42 : ℤ) ≤ 60 ∧ score_to_risk_level 42 = "Средний" :=
  ⟨by decide, by decide, c6_level_buckets.2.1 42 (by decide) (by decide)⟩

/-! ## Claim C7 -/

/-- Single two-tier rule contribution is monotone in its input. -/
theorem tier_mono (lo hi x y : ℚ) (p q : ℕ) (hpq : q ≤ p) (_hlh : lo ≤ hi) (hxy : x ≤ y) :
    (if x > hi then p else if x > lo then q else 0) ≤
      (if y > hi then p else if y > lo then q else 0) := by
  split_ifs <;> first | omega | linarith

/-- The IRR-versus-discount-rate contribution is monotone in the discount rate. -/
theorem irr_tier_mono_disc (irr d e : ℚ) (hde : d ≤ e) :
    (if irr < d then 30 else if irr < d * 1.1 then 15 else 0) ≤
      ((if irr < e then 30 else if irr < e * 1.1 then 15 else 0) : ℕ) := by
  split_ifs <;> first | omega | linarith

/-- Claim C7: `calculate_risk_score` is monotonically non-decreasing in each of
the adverse inputs payback_period, debt_share, debt_rate, construction_years
and discount_rate, all other inputs held fixed. -/
theorem c7_score_monotone :
    (∀ npv irr ds dr cy disc x y : ℚ, x ≤ y →
      calculate_risk_score npv irr x ds dr cy disc ≤
        calculate_risk_score npv irr y ds dr cy disc)
    ∧ (∀ npv irr pb dr cy disc x y : ℚ, x ≤ y →
      calculate_risk_score npv irr pb x dr cy disc ≤
        calculate_risk_score npv irr pb y dr cy disc)
    ∧ (∀ npv irr pb ds cy disc x y : ℚ, x ≤ y →
      calculate_risk_score npv irr pb ds x cy disc ≤
        calculate_risk_score npv irr pb ds y cy disc)
    ∧ (∀ npv irr pb ds dr disc x y : ℚ, x ≤ y →
      calculate_risk_score npv irr pb ds dr x disc ≤
        calculate_risk_score npv irr pb ds dr y disc)
    ∧ (∀ npv irr pb ds dr cy x y : ℚ, x ≤ y →
      calculate_risk_score npv irr pb ds dr cy x ≤
        calculate_risk_score npv irr pb ds dr cy y) := by
  refine ⟨?_, ?_, ?_, ?_, ?_⟩ <;>
    · intro a b c d e f x y hxy
      simp only [calculate_risk_score, Nat.zero_add]
      refine min_le_min le_rfl ?_
      gcongr <;>
        first
          | exact tier_mono 10 15 x y 30 20 (by norm_num) (by norm_num) hxy
          | exact tier_mono 50 70 x y 35 25 (by norm_num) (by norm_num) hxy
          | exact tier_mono 15 20 x y 30 20 (by norm_num) (by norm_num) hxy
          | exact tier_mono 5 7 x y 25 15 (by norm_num) (by norm_num) hxy
          | exact tier_mono 20 25 x y 20 10 (by norm_num) (by norm_num) hxy
          | exact irr_tier_mono_disc b x y hxy

/-- Witness for C7: increasing debt share from 40 to 80 does not decrease the
score, at a concrete input. -/
theorem c7_score_monotone_witness :
    (40 : ℚ) ≤ 80 ∧
      calculate_risk_score 100 20 5 40 10 3 10 ≤ calculate_risk_score 100 20 5 80 10 3 10 :=
  ⟨by norm_num, c7_score_monotone.2.1 100 20 5 10 3 10 40 80 (by norm_num)⟩

/-! ## Claim C9 -/

/-- Claim C9: for every input map, `calculate_risk_fallback` returns a result
whose risk_level is the bucketing of the computed score, whose critical_factors
are exactly the triggered factors of the four independent checks (placeholder
when none trigger), whose scenarios and risk_mitigation are empty lists, whose
total_potential_losses is 0, and which carries no business_vision,
estimated_payback or business_score entry. -/
theorem c9_fallback_shape (pd : List (String × ℚ)) :
    ((calculate_risk_fallback pd).lookup "risk_level" =
      some (FVal.vStr (score_to_risk_level
        ((calculate_risk_score (dget pd "npv") (dget pd "irr") (dget pd "payback_period")
          (dget pd "debt_share") (dget pd "debt_rate") (dget pd "construction_years")
          (dget pd "discount_rate") : ℕ) : ℤ))))
    ∧ (∃ cf, (calculate_risk_fallback pd).lookup "critical_factors" = some (FVal.vList cf) ∧
        (((dget pd "npv" < 0 ∨ dget pd "irr" < dget pd "discount_rate" ∨
           dget pd "debt_share" > 50 ∨ dget pd "payback_period" > 10) ∧
          (∀ f, f ∈ cf ↔
            ((f = "Отрицательный NPV" ∧ dget pd "npv" < 0) ∨
             (f = "IRR ниже ставки дисконтирования" ∧ dget pd "irr" < dget pd "discount_rate") ∨
             (f = "Высокая доля долга" ∧ dget pd "debt_share" > 50) ∨
             (f = "Долгий срок окупаемости" ∧ dget pd "payback_period" > 10))))
         ∨ (¬(dget pd "npv" < 0 ∨ dget pd "irr" < dget pd "discount_rate" ∨
              dget pd "debt_share" > 50 ∨ dget pd "payback_period" > 10) ∧
            cf = ["Требуется детальный анализ"])))
    ∧ (calculate_risk_fallback pd).lookup "scenarios" = some (FVal.vList [])
    ∧ (calculate_risk_fallback pd).lookup "risk_mitigation" = some (FVal.vList [])
    ∧ (calculate_risk_fallback pd).lookup "total_potential_losses" = some (FVal.vNum 0)
    ∧ (calculate_risk_fallback pd).lookup "business_vision" = none
    ∧ (calculate_risk_fallback pd).lookup "estimated_payback" = none
    ∧ (calculate_risk_fallback pd).lookup "business_score" = none := by
  refine ⟨by simp [calculate_risk_fallback, List.lookup], ?_,
    by simp [calculate_risk_fallback, List.lookup],
    by simp [calculate_risk_fallback, List.lookup],
    by simp [calculate_risk_fallback, List.lookup],
    by simp [calculate_risk_fallback, List.lookup],
    by simp [calculate_risk_fallback, List.lookup],
    by simp [calculate_risk_fallback, List.lookup]⟩
  refine ⟨(let cf :=
      (if dget pd "npv" < 0 then ["Отрицательный NPV"] else []) ++
      (if dget pd "irr" < dget pd "discount_rate" then
        ["IRR ниже ставки дисконтирования"] else []) ++
      (if dget pd "debt_share" > 50 then ["Высокая доля долга"] else []) ++
      (if dget pd "payback_period" > 10 then ["Долгий срок окупаемости"] else []);
    if cf ≠ [] then cf else ["Требуется детальный анализ"]), ?_, ?_⟩
  · simp [calculate_risk_fallback, List.lookup]
  · by_cases h1 : dget pd "npv" < 0 <;>
      by_cases h2 : dget pd "irr" < dget pd "discount_rate" <;>
      by_cases h3 : dget pd "debt_share" > 50 <;>
      by_cases h4 : dget pd "payback_period" > 10 <;>
      simp [h1, h2, h3, h4] <;>
      · intro f
        constructor
        · rintro (rfl | rfl | rfl | rfl) <;> simp_all
        · rintro (⟨rfl, _⟩ | ⟨rfl, _⟩ | ⟨rfl, _⟩ | ⟨rfl, _⟩) <;> simp_all

/-- Witness for C9: the critical-factor characterization applied to a concrete
input map with a negative NPV. -/
theorem c9_fallback_shape_witness :
    ∃ cf, (calculate_risk_fallback [("npv", -5), ("irr", 10), ("discount_rate", 5)]).lookup
        "critical_factors" = some (FVal.vList cf) := by
  obtain ⟨_, ⟨cf, hcf, _⟩, _⟩ := c9_fallback_shape [("npv", -5), ("irr", 10), ("discount_rate", 5)]
  exact ⟨cf, hcf⟩

/-! ## Cell and sheet model (src/processors/excel_reader.py)

A worksheet is a row-major grid of optional scalar cell values; `cellAt` is
1-indexed like openpyxl's `worksheet.cell(row, column)`, returning an empty
cell outside the populated grid. -/

/-- A cell value: empty, a number, a string, or a boolean. -/
inductive CellVal where
  | empty
  | num (q : ℚ)
  | str (s : String)
  | boolean (b : Bool)
deriving DecidableEq

/-- A worksheet: rows of cells in row-major order. -/
def Sheet := List (List CellVal)

instance : DecidableEq Sheet := by unfold Sheet; infer_instance

/-- Cell access, 1-indexed; cells outside the grid are empty. -/
def cellAt (ws : Sheet) (r c : ℕ) : CellVal :=
  (((ws.get? (r - 1)).getD []).get? (c - 1)).getD CellVal.empty

/-- Python truthiness of a cell value (`if cell.value:`): `None`, `0`, the
empty string and `False` are falsy. -/
def truthy : CellVal → Bool
  | CellVal.empty => false
  | CellVal.num q => decide (q ≠ 0)
  | CellVal.str s => decide (s ≠ "")
  | CellVal.boolean b => b

/-- Lower-casing of one character as Python `str.lower` does on the ASCII and
Cyrillic letters that occur in this code base. -/
def lowerChar (c : Char) : Char :=
  let n := c.toNat
  if 65 ≤ n ∧ n ≤ 90 then Char.ofNat (n + 32)
  else if 1040 ≤ n ∧ n ≤ 1071 then Char.ofNat (n + 32)
  else if n = 1025 then Char.ofNat 1105
  else c

/-- Upper-casing of one character as Python `str.upper` does on the ASCII and
Cyrillic letters that occur in this code base. -/
def upperChar (c : Char) : Char :=
  let n := c.toNat
  if 97 ≤ n ∧ n ≤ 122 then Char.ofNat (n - 32)
  else if 1072 ≤ n ∧ n ≤ 1103 then Char.ofNat (n - 32)
  else if n = 1105 then Char.ofNat 1025
  else c

/-- Model of Python `str.lower`. -/
def pyLower (s : String) : String := String.mk (s.toList.map lowerChar)

/-- Model of Python `str.upper`. -/
def pyUpper (s : String) : String := String.mk (s.toList.map upperChar)

/-- Does `hay` start with `needle` (character lists)? -/
def startsWithChars : List Char → List Char → Bool
  | [], _ => true
  | _ :: _, [] => false
  | a :: as, b :: bs => a == b && startsWithChars as bs

/-- Does `hay` contain `needle` as a contiguous substring (character lists)?
Models the Python `in` operator on strings. -/
def containsChars (needle : List Char) : List Char → Bool
  | [] => startsWithChars needle []
  | c :: rest => startsWithChars needle (c :: rest) || containsChars needle rest

/-- Model of the Python substring test `needle in hay`. -/
def strContains (hay needle : String) : Bool := containsChars needle.toList hay.toList

/-- Decimal digits of the fractional remainder `r / d`, up to `fuel` digits;
used to model Python `str()` of a numeric cell value. -/
def fracDigitsAux : ℕ → ℕ → ℕ → List Char
  | 0, _, _ => []
  | fuel + 1, r, d =>
    if r = 0 then []
    else
      let r10 := r * 10
      Char.ofNat (48 + r10 / d) :: fracDigitsAux fuel (r10 % d) d

/-- Model of Python `str()` of a numeric cell value (integers print without a
fractional part, as openpyxl returns `int` for integral cells). -/
def pyNumStr (q : ℚ) : String :=
  let sign := if q.num < 0 then "-" else ""
  let n := q.num.natAbs
  let d := q.den
  if d = 1 then sign ++ toString n
  else sign ++ toString (n / d) ++ "." ++ String.mk (fracDigitsAux 17 (n % d) d)

/-- Model of Python `str()` of an arbitrary cell value. -/
def pyStr : CellVal → String
  | CellVal.empty => "None"
  | CellVal.num q => pyNumStr q
  | CellVal.str s => s
  | CellVal.boolean b => if b then "True" else "False"

/-! ## Numeric parsing

`float(...)` on strings and the regex extraction `re.findall(r'-?\d+\.?\d*', ...)`
used by the value extractors. -/

/-- Split a leading run of decimal digits off a character list. -/
def takeDigits : List Char → List Char × List Char
  | [] => ([], [])
  | c :: rest =>
    if c.isDigit then
      let (ds, r) := takeDigits rest
      (c :: ds, r)
    else ([], c :: rest)

/-- Natural number denoted by a digit list (most significant first). -/
def digitsToNat : List Char → ℕ → ℕ
  | [], acc => acc
  | c :: rest, acc => digitsToNat rest (acc * 10 + (c.toNat - 48))

/-- Rational denoted by a sign, integer digits and fractional digits, built
with `mkRat` over integer arithmetic. -/
def digitsToRat (sgn : ℤ) (ip fp : List Char) : ℚ :=
  mkRat (sgn * ((digitsToNat ip 0 * 10 ^ fp.length + digitsToNat fp 0 : ℕ) : ℤ))
    (10 ^ fp.length)

/-- Parse the exponent part of a float literal (after `e`/`E`), returning the
signed exponent; the whole remainder must be consumed. -/
def parseExponent (l : List Char) : Option ℤ :=
  let (sign, l1) : ℤ × List Char :=
    match l with
    | '+' :: t => (1, t)
    | '-' :: t => (-1, t)
    | t => (1, t)
  let (ds, l2) := takeDigits l1
  if ds = [] ∨ l2 ≠ [] then none
  else some (sign * (digitsToNat ds 0 : ℤ))

/-- Parse a full float literal (mantissa and optional exponent); the whole
character list must be consumed.  Models CPython's accepted decimal forms
`[sign] (digits [. digits] | . digits) [e [sign] digits]`. -/
def parseFloatChars (l : List Char) : Option ℚ :=
  let (sgn, l1) : ℤ × List Char :=
    match l with
    | '+' :: t => (1, t)
    | '-' :: t => (-1, t)
    | t => (1, t)
  let (ip, l2) := takeDigits l1
  let (fp, l3) : List Char × List Char :=
    match l2 with
    | '.' :: t => takeDigits t
    | t => ([], t)
  if ip = [] ∧ fp = [] then none
  else
    let mant : ℤ := sgn * (digitsToNat (ip ++ fp) 0 : ℤ)
    let mk : ℤ → ℚ := fun e =>
      let k := e - (fp.length : ℤ)
      if 0 ≤ k then mkRat (mant * (10 : ℤ) ^ k.toNat) 1
      else mkRat mant ((10 : ℕ) ^ (-k).toNat)
    match l3 with
    | [] => some (mk 0)
    | 'e' :: t => (parseExponent t).map mk
    | 'E' :: t => (parseExponent t).map mk
    | _ => none

/-- Model of Python `float(s)` on a string: strip surrounding whitespace, then
parse a decimal float literal; `none` models the `ValueError` path. -/
def pyFloatOfString (s : String) : Option ℚ :=
  parseFloatChars ((s.toList.dropWhile Char.isWhitespace).reverse.dropWhile Char.isWhitespace |>.reverse)

/-- Model of Python `float(v)` on a cell value: numbers pass through, booleans
coerce to 1/0, strings are parsed, empty cells fail with `TypeError`. -/
def pyFloatOfCell : CellVal → Option ℚ
  | CellVal.empty => none
  | CellVal.num q => some q
  | CellVal.boolean b => some (if b then 1 else 0)
  | CellVal.str s => pyFloatOfString s

/-- The punctuation normalization `.replace(',', '.').replace('%', '')` applied
before the regex search. -/
def normalizeChars (l : List Char) : List Char :=
  (l.map fun c => if c = ',' then '.' else c).filter (fun c => c ≠ '%')

/-- Try to match the regex `-?\d+\.?\d*` (`allowSign = true`) or `\d+\.?\d*`
(`allowSign = false`) anchored at the head of the list, returning the
greedy match. -/
def matchNumAt (allowSign : Bool) (l : List Char) : Option (List Char) :=
  let (sign, l1) : List Char × List Char :=
    match l with
    | '-' :: t => if allowSign then (['-'], t) else ([], '-' :: t)
    | t => ([], t)
  let (ds, l2) := takeDigits l1
  if ds = [] then none
  else
    match l2 with
    | '.' :: l3 => some (sign ++ ds ++ '.' :: (takeDigits l3).1)
    | _ => some (sign ++ ds)

/-- First match of the numeric regex in the list, scanning left to right;
models `re.findall(...)[0]`. -/
def firstRegexNum (allowSign : Bool) : List Char → Option (List Char)
  | [] => none
  | c :: rest =>
    match matchNumAt allowSign (c :: rest) with
    | some m => some m
    | none => firstRegexNum allowSign rest

/-- Rational value of a regex match (shape `[-]digits[.digits]`); the
corresponding `float()` call in the source can never fail on such a match. -/
def parseRegexMatch (l : List Char) : ℚ :=
  let (sgn, l1) : ℤ × List Char :=
    match l with
    | '-' :: t => (-1, t)
    | t => (1, t)
  let (ip, l2) := takeDigits l1
  let fp : List Char := match l2 with | '.' :: t => (takeDigits t).1 | _ => []
  digitsToRat sgn ip fp

/-- Extraction of the first embedded number from a string after punctuation
normalization, with the sign-allowing regex `-?\d+\.?\d*` (excel_reader.py
line 77 and lines 277, 221 use this pattern family). -/
def extractNumFromString (allowSign : Bool) (s : String) : Option ℚ :=
  (firstRegexNum allowSign (normalizeChars s.toList)).map parseRegexMatch

/-! ## Cell locator (excel_reader.py lines 13-35) -/

/-- Scan one row left to right; `r` is the row coordinate, `c` the coordinate
of the head cell.  Falsy cells are skipped (`if cell.value:`); a truthy cell
matches when the (case-folded) search key occurs in its string form. -/
def findInRowAux (key : String) (cs : Bool) (r : ℕ) : List CellVal → ℕ → Option (ℕ × ℕ)
  | [], _ => none
  | v :: rest, c =>
    if truthy v ∧ strContains (if cs then pyStr v else pyLower (pyStr v)) key then some (r, c)
    else findInRowAux key cs r rest (c + 1)

/-- Scan rows top to bottom; `r` is the coordinate of the head row. -/
def findRowsAux (key : String) (cs : Bool) : List (List CellVal) → ℕ → Option (ℕ × ℕ)
  | [], _ => none
  | row :: rest, r =>
    match findInRowAux key cs r row 1 with
    | some rc => some rc
    | none => findRowsAux key cs rest (r + 1)

/-- Embedding of `find_cell_by_text` (excel_reader.py lines 13-35): first
matching cell in row-major order, or `none`. -/
def find_cell_by_text (ws : Sheet) (search_text : String) (case_sensitive : Bool) :
    Option (ℕ × ℕ) :=
  let key := if case_sensitive then search_text else pyLower search_text
  findRowsAux key case_sensitive ws 1

/-! ## Proximity value extractor (excel_reader.py lines 38-116) -/

/-- The eight fixed proximity offsets, in the source's priority order
(excel_reader.py lines 52-61). -/
def searchPositions (row col : ℕ) : List (ℕ × ℕ) :=
  [(row, col + 1), (row, col + 2), (row, col + 3),
   (row + 1, col), (row + 1, col + 1), (row + 1, col + 2),
   (row + 2, col), (row + 2, col + 1)]

/-- The ray-search candidates (excel_reader.py lines 89-114): for each
`i = 1..10`, first the cell `i` to the right in the same row, then the cell
`i` below in the same column. -/
def rayPositions (row col : ℕ) : List (ℕ × ℕ) :=
  (List.range 10).bind fun i => [(row, col + (i + 1)), (row + (i + 1), col)]

/-- Two-stage probe used on the eight proximity offsets (lines 63-86): direct
`float()` coercion first, then the regex extraction of the first embedded
number from a punctuation-normalized string. -/
def probeTwoStage (v : CellVal) : Option ℚ :=
  match v with
  | CellVal.empty => none
  | CellVal.num q => some q
  | CellVal.boolean b => some (if b then 1 else 0)
  | CellVal.str s =>
    match pyFloatOfString s with
    | some q => some q
    | none => extractNumFromString true s

/-- Probe used in the ray-search phase (lines 93-99 and 106-112): only the
direct `float()` coercion, with no string-substring extraction. -/
def probeFloatOnly (v : CellVal) : Option ℚ :=
  match v with
  | CellVal.empty => none
  | v => pyFloatOfCell v

/-- Embedding of `extract_value_near_cell` (excel_reader.py lines 38-116):
first success over the eight proximity offsets with the two-stage probe, then
first success over the ray candidates with the direct-coercion probe. -/
def extract_value_near_cell (ws : Sheet) (row col : ℕ) : Option ℚ :=
  match (searchPositions row col).findSome? (fun p => probeTwoStage (cellAt ws p.1 p.2)) with
  | some v => some v
  | none => (rayPositions row col).findSome? (fun p => probeFloatOnly (cellAt ws p.1 p.2))

/-! ## Helper lemmas on first-success scans -/

/-- If everything before index `k` fails and the element at `k` succeeds, the
first-success scan returns that success. -/
theorem findSome?_take_get {α β : Type} (f : α → Option β) :
    ∀ (l : List α) (k : ℕ) (a : α) (b : β),
      (∀ x ∈ l.take k, f x = none) → l.get? k = some a → f a = some b →
        l.findSome? f = some b := by
  intro l
  induction l with
  | nil => intro k a b _ hget _; simp at hget
  | cons x t ih =>
    intro k a b hpre hget hfb
    cases k with
    | zero =>
      simp at hget
      subst hget
      simp [List.findSome?, hfb]
    | succ k =>
      have hx : f x = none := hpre x (by simp)
      simp [List.findSome?, hx]
      exact ih k a b (fun y hy => hpre y (by simp [hy])) (by simpa using hget) hfb

/-- If every element fails, the first-success scan fails. -/
theorem findSome?_none {α β : Type} (f : α → Option β) :
    ∀ l : List α, (∀ x ∈ l, f x = none) → l.findSome? f = none := by
  intro l
  induction l with
  | nil => intro; rfl
  | cons x t ih =>
    intro h
    have ht : t.findSome? f = none := ih fun y hy => h y (by simp [hy])
    simp [List.findSome?, h x (by simp), ht]

/-! ## Claim C5 -/

/-- Claim C5: `extract_value_near_cell` tests the eight fixed offsets
(row,col+1), (row,col+2), (row,col+3), (row+1,col), (row+1,col+1),
(row+1,col+2), (row+2,col), (row+2,col+1) in strict priority order and returns
the first probe success: if the probes at all offsets before index `k` fail
and the probe at offset `k` yields `v`, the result is `v` (so a numeric at
right+1 always wins, whatever the later offsets hold). -/
theorem c5_offset_priority (ws : Sheet) (row col k : ℕ) (p : ℕ × ℕ) (v : ℚ)
    (hpre : ∀ q ∈ (searchPositions row col).take k, probeTwoStage (cellAt ws q.1 q.2) = none)
    (hk : (searchPositions row col).get? k = some p)
    (hit : probeTwoStage (cellAt ws p.1 p.2) = some v) :
    extract_value_near_cell ws row col = some v := by
  unfold extract_value_near_cell
  rw [findSome?_take_get (fun q => probeTwoStage (cellAt ws q.1 q.2))
    (searchPositions row col) k p v hpre hk hit]

/-- Worksheet used as the C5 witness: the label cell has valid numerics both
at right+1 (value 7) and at down+1 (value 9). -/
def c5sheet : Sheet :=
  [[CellVal.str "метка", CellVal.num 7], [CellVal.num 9]]

/-- Witness for C5: at offset index 0 (right+1) the probe yields 7, and the
extractor returns 7, not the equally valid 9 at down+1. -/
theorem c5_offset_priority_witness : extract_value_near_cell c5sheet 1 1 = some 7 :=
  c5_offset_priority c5sheet 1 1 0 (1, 2) 7 (by decide) (by decide) (by decide)

/-! ## Claim C3 -/

/-- Worksheet refuting C3 as stated: the number 42 is embedded in the string
"42%" four cells to the right of the label, reachable only via ray search. -/
def c3sheet : Sheet :=
  [[CellVal.str "срок окупаемости", CellVal.empty, CellVal.empty, CellVal.empty,
    CellVal.str "42%"]]

/-- Counterexample to C3 as stated: the two-stage probe would extract 42 from
the string "42%" at (1,5), yet the extractor returns nothing, because the
ray-search phase never applies the string-substring extraction. -/
theorem c3_counterexample :
    probeTwoStage (cellAt c3sheet 1 5) = some 42 ∧
      extract_value_near_cell c3sheet 1 1 = none := by
  constructor
  · decide
  · decide

/-- Claim C3 (amended): in the ray-search phase each candidate up to 10 cells
rightward then 10 cells downward (interleaved nearest-first) is tested with
the direct `float()` coercion only — no punctuation-normalized substring
extraction — so a value reachable only via ray search is returned exactly when
its cell coerces directly (a number, boolean, or plain numeric string): if all
eight proximity probes fail, the earlier ray candidates fail coercion, and the
cell `k` to the right (1 ≤ k ≤ 10) coerces to `q`, the extractor returns `q`. -/
theorem c3_ray_coercion_only (ws : Sheet) (row col k : ℕ) (q : ℚ)
    (hk1 : 1 ≤ k) (hk10 : k ≤ 10)
    (hprox : ∀ p ∈ searchPositions row col, probeTwoStage (cellAt ws p.1 p.2) = none)
    (hray : ∀ p ∈ (rayPositions row col).take (2 * (k - 1)),
      probeFloatOnly (cellAt ws p.1 p.2) = none)
    (hit : probeFloatOnly (cellAt ws row (col + k)) = some q) :
    extract_value_near_cell ws row col = some q := by
  have h1 : (searchPositions row col).findSome?
      (fun p => probeTwoStage (cellAt ws p.1 p.2)) = none :=
    findSome?_none _ _ hprox
  have hget : (rayPositions row col).get? (2 * (k - 1)) = some (row, col + k) := by
    interval_cases k <;> rfl
  have h2 : (rayPositions row col).findSome?
      (fun p => probeFloatOnly (cellAt ws p.1 p.2)) = some q :=
    findSome?_take_get (fun p => probeFloatOnly (cellAt ws p.1 p.2))
      (rayPositions row col) (2 * (k - 1)) (row, col + k) q hray hget hit
  simp [extract_value_near_cell, h1, h2]

/-- Worksheet for the C3 witness: a directly numeric value 4 cells to the
right, reachable only via ray search. -/
def c3wsheet : Sheet :=
  [[CellVal.str "метка", CellVal.empty, CellVal.empty, CellVal.empty, CellVal.num 42]]

/-- Witness for the amended C3: the numeric 42 four cells right of the label
is returned via ray search after all proximity offsets fail. -/
theorem c3_ray_coercion_only_witness : extract_value_near_cell c3wsheet 1 1 = some 42 :=
  c3_ray_coercion_only c3wsheet 1 1 4 42 (by decide) (by decide) (by decide) (by decide)
    (by decide)

/-! ## Claim C10 -/

/-- A successful in-row scan lands on a truthy cell of that row. -/
theorem findInRowAux_truthy (key : String) (cs : Bool) (r : ℕ) :
    ∀ (l : List CellVal) (c i j : ℕ), findInRowAux key cs r l c = some (i, j) →
      i = r ∧ c ≤ j ∧ truthy ((l.get? (j - c)).getD CellVal.empty) = true := by
  intro l
  induction l with
  | nil => intro c i j h; simp [findInRowAux] at h
  | cons v rest ih =>
    intro c i j h
    rw [findInRowAux] at h
    set cv := if cs then pyStr v else pyLower (pyStr v) with hcv
    split at h
    · rename_i hcond
      obtain ⟨rfl, rfl⟩ : r = i ∧ c = j := by simpa using h
      exact ⟨rfl, le_refl _, by simpa using hcond.1⟩
    · obtain ⟨hi, hcj, ht⟩ := ih (c + 1) i j h
      refine ⟨hi, by omega, ?_⟩
      have hsub : j - c = (j - (c + 1)) + 1 := by omega
      rw [hsub]
      simpa using ht

/-- A successful row-major scan lands on a truthy cell of the scanned grid. -/
theorem findRowsAux_truthy (key : String) (cs : Bool) :
    ∀ (rows : List (List CellVal)) (r i j : ℕ), findRowsAux key cs rows r = some (i, j) →
      r ≤ i ∧ truthy (((rows.get? (i - r)).getD []).get? (j - 1) |>.getD CellVal.empty) = true := by
  intro rows
  induction rows with
  | nil => intro r i j h; simp [findRowsAux] at h
  | cons row rest ih =>
    intro r i j h
    rw [findRowsAux] at h
    split at h
    · rename_i rc hrow
      obtain ⟨rfl, rfl⟩ : (i, j) = rc := by simpa using h.symm
      obtain ⟨rfl, hcj, ht⟩ := findInRowAux_truthy key cs r row 1 i j hrow
      exact ⟨le_refl _, by simpa using ht⟩
    · obtain ⟨hr, ht⟩ := ih (r + 1) i j h
      refine ⟨by omega, ?_⟩
      have hsub : i - r = (i - (r + 1)) + 1 := by omega
      rw [hsub]
      simpa using ht

/-- Claim C10: `find_cell_by_text` only ever returns the coordinate of a
truthy cell — never one holding 0, the empty string, `False`, or nothing — so
a cell containing the numeric 0 cannot match even the search text "0". -/
theorem c10_locator_truthy :
    (∀ (ws : Sheet) (s : String) (cs : Bool) (r c : ℕ),
      find_cell_by_text ws s cs = some (r, c) →
        truthy (cellAt ws r c) = true ∧
          cellAt ws r c ≠ CellVal.num 0 ∧ cellAt ws r c ≠ CellVal.str "" ∧
          cellAt ws r c ≠ CellVal.boolean false ∧ cellAt ws r c ≠ CellVal.empty)
    ∧ find_cell_by_text [[CellVal.num 0]] "0" false = none := by
  constructor
  · intro ws s cs r c h
    have ht := (findRowsAux_truthy _ cs ws 1 r c h).2
    have htr : truthy (cellAt ws r c) = true := by simpa [cellAt] using ht
    refine ⟨htr, ?_, ?_, ?_, ?_⟩ <;> intro hv <;> rw [hv] at htr <;> simp [truthy] at htr
  · decide

/-- Witness for C10: on a sheet whose only cell is the truthy string "abc",
the locator's result cell is truthy. -/
theorem c10_locator_truthy_witness :
    truthy (cellAt [[CellVal.str "abc"]] 1 1) = true :=
  (c10_locator_truthy.1 [[CellVal.str "abc"]] "b" false 1 1 (by decide)).1

/-! ## IRR special probe (excel_reader.py lines 202-256) -/

/-- The rescale-and-bounds rule of the primary cell E15 on a directly coerced
number (lines 209-215): a value in [0,1) is read as a fraction and rescaled
by 100, and the result is accepted only inside [0,100]. -/
def irrScaleCheck (q : ℚ) : Option ℚ :=
  let v := if 0 ≤ q ∧ q < 1 then mkRat (q.num * 100) q.den else q
  if 0 ≤ v ∧ v ≤ 100 then some v else none

/-- Primary probe of cell E15 (row 15, column 5; lines 204-230).  A directly
coercible value goes through the rescale-and-bounds rule; otherwise the first
number embedded in a string (unsigned regex) is rescaled when below 1 and
bounds-checked. -/
def irrPrimary (ws : Sheet) : Option ℚ :=
  match cellAt ws 15 5 with
  | CellVal.empty => none
  | CellVal.num q => irrScaleCheck q
  | CellVal.boolean b => irrScaleCheck (if b then 1 else 0)
  | CellVal.str s =>
    match pyFloatOfString s with
    | some q => irrScaleCheck q
    | none =>
      match extractNumFromString false s with
      | some val =>
        let v := if val < 1 then mkRat (val.num * 100) val.den else val
        if 0 ≤ v ∧ v ≤ 100 then some v else none
      | none => none

/-- Probe of an alternative cell in column D (row 15 or 16; lines 232-254).
A directly coercible value is accepted when within [0,100] — with no fraction
rescale — and otherwise the first number embedded in a string is accepted when
within [0,100], likewise without rescale. -/
def irrAlt (ws : Sheet) (row : ℕ) : Option ℚ :=
  match cellAt ws row 4 with
  | CellVal.empty => none
  | CellVal.num q => if 0 ≤ q ∧ q ≤ 100 then some q else none
  | CellVal.boolean b =>
    let q : ℚ := if b then 1 else 0
    if 0 ≤ q ∧ q ≤ 100 then some q else none
  | CellVal.str s =>
    match pyFloatOfString s with
    | some q => if 0 ≤ q ∧ q ≤ 100 then some q else none
    | none =>
      match extractNumFromString false s with
      | some val => if 0 ≤ val ∧ val ≤ 100 then some val else none
      | none => none

/-- The full IRR special probe on the first sheet: E15, then D15, then D16. -/
def irrProbe (ws : Sheet) : Option ℚ :=
  match irrPrimary ws with
  | some v => some v
  | none =>
    match irrAlt ws 15 with
    | some v => some v
    | none => irrAlt ws 16

/-! ## Claim C4 -/

/-- The alternative-cell rule as the claim words it (the same rule as the
primary cell): a numeric value in [0,1) is interpreted as a fraction and
rescaled by 100, and a result is accepted only inside [0,100]. -/
def claimedAltRule (q : ℚ) : Option ℚ := irrScaleCheck q

/-- Worksheet refuting C4 as stated: E15 is empty and D15 holds the numeric
fraction 3/10. -/
def c4sheet : Sheet :=
  List.replicate 14 [] ++
    [[CellVal.empty, CellVal.empty, CellVal.empty, CellVal.num (mkRat 3 10)]]

/-- Counterexample to C4 as stated: on `c4sheet` the probe returns the raw
fraction 3/10 from D15, while the claimed rescale-and-bounds rule of the
primary cell would have produced 30. -/
theorem c4_counterexample :
    irrProbe c4sheet = some (mkRat 3 10) ∧ claimedAltRule (mkRat 3 10) = some 30 ∧
      (mkRat 3 10 : ℚ) ≠ 30 := by
  refine ⟨by decide, by decide, by decide⟩

/-- Claim C4 (amended): when the primary cell E15 does not resolve irr, the
two alternative cells D15 and D16 are probed accepting only results within
[0,100], but without the fraction rescale: a directly numeric value `q` in
D15 with 0 ≤ q ≤ 100 is returned verbatim, even when q < 1. -/
theorem c4_alt_no_rescale (ws : Sheet) (q : ℚ) (h0 : irrPrimary ws = none)
    (hcell : cellAt ws 15 4 = CellVal.num q) (hq0 : 0 ≤ q) (hq1 : q ≤ 100) :
    irrProbe ws = some q := by
  simp [irrProbe, h0, irrAlt, hcell, hq0, hq1]

/-- Worksheet for the C4 witness: E15 empty, D15 = 1/2. -/
def c4wsheet : Sheet :=
  List.replicate 14 [] ++
    [[CellVal.empty, CellVal.empty, CellVal.empty, CellVal.num (mkRat 1 2)]]

/-- Witness for the amended C4: the fraction 1/2 in D15 is returned verbatim
(not rescaled to 50). -/
theorem c4_alt_no_rescale_witness : irrProbe c4wsheet = some (mkRat 1 2) :=
  c4_alt_no_rescale c4wsheet (mkRat 1 2) (by decide) (by decide) (by decide) (by decide)

/-! ## Project data extractor (excel_reader.py lines 119-323) -/

/-- The eight numeric parameter keys, in the insertion order of the
`search_patterns` dict (lines 183-192). -/
inductive FKey where
  | capex | construction_years | debt_share | debt_rate | discount_rate
  | npv | irr | payback_period
deriving DecidableEq

/-- The extraction state: the `data` dict, with `none` meaning the key is not
in the dict yet. -/
structure PData where
  ptype : Option String := none
  capex : Option ℚ := none
  construction_years : Option ℚ := none
  debt_share : Option ℚ := none
  debt_rate : Option ℚ := none
  discount_rate : Option ℚ := none
  npv : Option ℚ := none
  irr : Option ℚ := none
  payback_period : Option ℚ := none
deriving DecidableEq

/-- Read a numeric field of the data dict. -/
def PData.get (d : PData) : FKey → Option ℚ
  | FKey.capex => d.capex
  | FKey.construction_years => d.construction_years
  | FKey.debt_share => d.debt_share
  | FKey.debt_rate => d.debt_rate
  | FKey.discount_rate => d.discount_rate
  | FKey.npv => d.npv
  | FKey.irr => d.irr
  | FKey.payback_period => d.payback_period

/-- Write a numeric field of the data dict. -/
def PData.set (d : PData) (k : FKey) (v : ℚ) : PData :=
  match k with
  | FKey.capex => { d with capex := some v }
  | FKey.construction_years => { d with construction_years := some v }
  | FKey.debt_share => { d with debt_share := some v }
  | FKey.debt_rate => { d with debt_rate := some v }
  | FKey.discount_rate => { d with discount_rate := some v }
  | FKey.npv => { d with npv := some v }
  | FKey.irr => { d with irr := some v }
  | FKey.payback_period => { d with payback_period := some v }

/-- Write the project type. -/
def PData.setType (d : PData) (t : String) : PData := { d with ptype := some t }

/-- The label-synonym table `search_patterns` (lines 183-192). -/
def searchPatterns : FKey → List String
  | FKey.capex => ["стоимость строительства", "capex", "капитальные затраты", "инвестиции"]
  | FKey.construction_years =>
    ["срок строительства", "период строительства", "длительность строительства"]
  | FKey.debt_share => ["доля долга", "процент долга", "доля заемных средств"]
  | FKey.debt_rate =>
    ["ставка по долгу", "ставка долга", "процент по долгу", "ставка займа", "процент долга"]
  | FKey.discount_rate =>
    ["ставка дисконтирования", "дисконт", "ставка дисконта",
     "ставка дисконтирования для бизнеса"]
  | FKey.npv =>
    ["npv", "чистая приведенная стоимость", "чистая приведённая стоимость",
     "чистый приведенный доход", "чистая приведённая стоимость, млн. руб",
     "чистая приведённая стоимость, млн руб"]
  | FKey.irr => ["irr", "внутренняя норма доходности", "внутренняя норма рентабельности"]
  | FKey.payback_period =>
    ["срок окупаемости", "период окупаемости", "окупаемость", "payback", "окупаемость, лет"]

/-- The keys in the order the per-sheet loop iterates them. -/
def keysOrder : List FKey :=
  [FKey.capex, FKey.construction_years, FKey.debt_share, FKey.debt_rate,
   FKey.discount_rate, FKey.npv, FKey.irr, FKey.payback_period]

/-- Number held by the located label cell itself (lines 264-286): the cell is
only inspected when truthy; a numeric or boolean value coerces directly
(`isinstance(cell.value, (int, float))` admits bool), a string yields its
first embedded (signed) regex number. -/
def ownCellNumber (v : CellVal) : Option ℚ :=
  if truthy v then
    match v with
    | CellVal.num q => some q
    | CellVal.boolean b => some (if b then 1 else 0)
    | CellVal.str s => extractNumFromString true s
    | CellVal.empty => none
  else none

/-- One synonym-table search for a key on a sheet (lines 261-294): for each
pattern in order, locate the label, try the label cell itself, then the
proximity extractor; first success wins. -/
def keyPatternSearch (ws : Sheet) (k : FKey) : Option ℚ :=
  (searchPatterns k).findSome? fun pat =>
    match find_cell_by_text ws pat false with
    | none => none
    | some (row, col) =>
      match ownCellNumber (cellAt ws row col) with
      | some v => some v
      | none => extract_value_near_cell ws row col

/-- Processing of one key on one sheet (lines 195-297): skip keys already
resolved to a non-zero value; on the first sheet try the IRR special probe for
`irr`; otherwise run the synonym search; a key that stays unresolved is
defaulted to 0 unless it is already present. -/
def processKey (isFirst : Bool) (ws : Sheet) (d : PData) (k : FKey) : PData :=
  if (d.get k).getD 0 ≠ 0 then d
  else
    match (if isFirst ∧ k = FKey.irr then irrProbe ws else none) with
    | some v => d.set k v
    | none =>
      match keyPatternSearch ws k with
      | some v => d.set k v
      | none => if (d.get k).isSome then d else d.set k 0

/-- The keyword fallback loop for the project type (lines 154-162): probe the
five known type keywords in order; on a located cell holding a truthy string,
take its stripped text and stop.  Returns the loop's final `project_type_cell`
binding together with the type text, mirroring that the loop variable retains
only the binding of the last executed iteration. -/
def keywordScan (ws : Sheet) : List String → Option (ℕ × ℕ) → Option (ℕ × ℕ) × Option String
  | [], last => (last, none)
  | kw :: rest, _ =>
    match find_cell_by_text ws kw false with
    | none => keywordScan ws rest none
    | some (r, c) =>
      match cellAt ws r c with
      | CellVal.str s =>
        if s ≠ "" then (some (r, c), some s.trim)
        else keywordScan ws rest (some (r, c))
      | _ => keywordScan ws rest (some (r, c))

/-- The neighbour-offset probe for the project type (lines 164-177): offsets
+1, +2, -1, -2 columns; accept a truthy string longer than 2 characters whose
stripped upper-case form is not a header phrase; a column index below 1 raises
in openpyxl and is skipped. -/
def typeOffsetProbe (ws : Sheet) (r c : ℕ) : Option String :=
  ([1, 2, -1, -2] : List ℤ).findSome? fun off =>
    let ci : ℤ := (c : ℤ) + off
    if ci < 1 then none
    else
      match cellAt ws r ci.toNat with
      | CellVal.str s =>
        if s ≠ "" ∧ s.length > 2 ∧
            pyUpper s.trim ∉ (["ПАРАМЕТРЫ ПРОЕКТА", "ПРОЕКТ", "ТИП"] : List String)
        then some s.trim else none
      | _ => none

/-- Project-type resolution on the first sheet (lines 150-180). -/
def resolveType (ws : Sheet) (d : PData) : PData :=
  let scanResult : Option (ℕ × ℕ) × Option String :=
    match find_cell_by_text ws "тип проекта" false with
    | some rc => (some rc, none)
    | none => keywordScan ws ["метро", "дорога", "энергетика", "мост", "тоннель"] none
  let d1 := match scanResult.2 with
    | some t => d.setType t
    | none => d
  let d2 := match scanResult.1 with
    | some (r, c) =>
      if d1.ptype.isSome then d1
      else
        match typeOffsetProbe ws r c with
        | some t => d1.setType t
        | none => d1
    | none => d1
  if d2.ptype.isSome then d2 else d2.setType "Не указан"

/-- Processing of one sheet (the body of the sheet loop, lines 144-297). -/
def processSheet (isFirst : Bool) (ws : Sheet) (d : PData) : PData :=
  keysOrder.foldl (fun acc k => processKey isFirst ws acc k)
    (if isFirst then resolveType ws d else d)

/-- The scan over all sheets of the workbook (lines 141-297); the first sheet
additionally resolves the project type and hosts the IRR special probe. -/
def scanWorkbook : List Sheet → PData
  | [] => {}
  | w :: rest => rest.foldl (fun d ws => processSheet false ws d) (processSheet true w {})

/-- The required fields (line 307). -/
def requiredFields : List FKey := [FKey.npv, FKey.irr, FKey.payback_period]

/-- Is a required field missing: not in the dict, or exactly 0 (line 308). -/
def isMissing : Option ℚ → Bool
  | none => true
  | some v => decide (v = 0)

/-- The missing-field list (line 308). -/
def missingFields (d : PData) : List FKey :=
  requiredFields.filter fun k => isMissing (d.get k)

/-- Python name of a field key, as interpolated into the error message. -/
def fieldName : FKey → String
  | FKey.capex => "capex"
  | FKey.construction_years => "construction_years"
  | FKey.debt_share => "debt_share"
  | FKey.debt_rate => "debt_rate"
  | FKey.discount_rate => "discount_rate"
  | FKey.npv => "npv"
  | FKey.irr => "irr"
  | FKey.payback_period => "payback_period"

/-- Model of `', '.join(...)`. -/
def joinComma : List String → String
  | [] => ""
  | [s] => s
  | s :: rest => s ++ ", " ++ joinComma rest

/-- The `ValueError` message of lines 311-314, naming the missing fields. -/
def extractionErrorMsg (m : List FKey) : String :=
  "В файле не найдены необходимые данные: " ++ joinComma (m.map fieldName) ++
    ". Проверьте структуру файла."

/-- Embedding of `extract_project_data` (excel_reader.py lines 119-323): scan
all sheets, then fail iff a required field is absent or exactly 0. -/
def extract_project_data (wb : List Sheet) : Except String PData :=
  let d := scanWorkbook wb
  let m := missingFields d
  if m = [] then Except.ok d else Except.error (extractionErrorMsg m)

/-! ## Claim C2 -/

/-- Reading after writing a numeric field. -/
theorem pdata_get_set (d : PData) (k k' : FKey) (v : ℚ) :
    (d.set k v).get k' = if k' = k then some v else d.get k' := by
  cases k <;> cases k' <;> simp [PData.set, PData.get]

/-- Writing the project type does not change numeric fields. -/
theorem pdata_get_setType (d : PData) (t : String) (k : FKey) :
    (d.setType t).get k = d.get k := by
  cases k <;> rfl

/-- Type resolution does not change numeric fields. -/
theorem resolveType_get (ws : Sheet) (d : PData) (k : FKey) :
    (resolveType ws d).get k = d.get k := by
  unfold resolveType
  dsimp only
  repeat' split
  all_goals try (first | rfl | simp [pdata_get_setType])

/-- After a key is processed on a sheet, it is present in the data dict. -/
theorem processKey_get_self (f : Bool) (ws : Sheet) (d : PData) (k : FKey) :
    ((processKey f ws d k).get k).isSome := by
  unfold processKey
  by_cases h1 : (d.get k).getD 0 ≠ 0
  · rw [if_pos h1]
    cases hd : d.get k with
    | none => rw [hd] at h1; simp at h1
    | some v => simp [hd]
  · rw [if_neg h1]
    cases hp : (if f ∧ k = FKey.irr then irrProbe ws else none) with
    | some v => simp [hp, pdata_get_set]
    | none =>
      simp only [hp]
      cases hs : keyPatternSearch ws k with
      | some v => simp [hs, pdata_get_set]
      | none =>
        simp only [hs]
        by_cases h2 : (d.get k).isSome
        · rw [if_pos h2]; exact h2
        · rw [if_neg h2]; simp [pdata_get_set]

/-- Processing any key preserves the presence of every key. -/
theorem processKey_get_preserve (f : Bool) (ws : Sheet) (d : PData) (k k' : FKey)
    (h : (d.get k').isSome) : ((processKey f ws d k).get k').isSome := by
  unfold processKey
  by_cases h1 : (d.get k).getD 0 ≠ 0
  · rw [if_pos h1]; exact h
  · rw [if_neg h1]
    cases hp : (if f ∧ k = FKey.irr then irrProbe ws else none) with
    | some v => rw [pdata_get_set]; split <;> simp [h]
    | none =>
      simp only [hp]
      cases hs : keyPatternSearch ws k with
      | some v => simp only [hs]; rw [pdata_get_set]; split <;> simp [h]
      | none =>
        simp only [hs]
        by_cases h2 : (d.get k).isSome
        · rw [if_pos h2]; exact h
        · rw [if_neg h2]; rw [pdata_get_set]; split <;> simp [h]

/-- Folding the per-key step preserves presence. -/
theorem foldl_processKey_preserve (f : Bool) (ws : Sheet) :
    ∀ (l : List FKey) (d : PData) (k' : FKey), (d.get k').isSome →
      ((l.foldl (fun acc k => processKey f ws acc k) d).get k').isSome := by
  intro l
  induction l with
  | nil => intro d k' h; exact h
  | cons x t ih =>
    intro d k' h
    exact ih (processKey f ws d x) k' (processKey_get_preserve f ws d x k' h)

/-- Folding the per-key step over a list containing `k` makes `k` present. -/
theorem foldl_processKey_mem (f : Bool) (ws : Sheet) :
    ∀ (l : List FKey) (d : PData) (k : FKey), k ∈ l →
      ((l.foldl (fun acc k => processKey f ws acc k) d).get k).isSome := by
  intro l
  induction l with
  | nil => intro d k h; simp at h
  | cons x t ih =>
    intro d k h
    rcases List.mem_cons.mp h with rfl | hmem
    · exact foldl_processKey_preserve f ws t _ k (processKey_get_self f ws d k)
    · exact ih _ k hmem

/-- After one full sheet pass, every numeric key is present. -/
theorem processSheet_all (f : Bool) (ws : Sheet) (d : PData) (k : FKey) :
    ((processSheet f ws d).get k).isSome := by
  apply foldl_processKey_mem
  cases k <;> simp [keysOrder]

/-- After scanning a nonempty workbook, every numeric key is present. -/
theorem scanWorkbook_all (wb : List Sheet) (h : wb ≠ []) (k : FKey) :
    ((scanWorkbook wb).get k).isSome := by
  cases wb with
  | nil => exact absurd rfl h
  | cons w rest =>
    have haux : ∀ (l : List Sheet) (d : PData), (∀ k', (d.get k').isSome) →
        ∀ k', ((l.foldl (fun d ws => processSheet false ws d) d).get k').isSome := by
      intro l
      induction l with
      | nil => intro d hd k'; exact hd k'
      | cons x t ih =>
        intro d _ k'
        exact ih (processSheet false x d) (fun j => processSheet_all false x d j) k'
    exact haux rest (processSheet true w {}) (fun j => processSheet_all true w {} j) k

/-- Claim C2: for every (nonempty) workbook, `extract_project_data` fails with
the extraction error naming the missing fields iff at least one of npv, irr,
payback_period is still absent or exactly 0 after scanning all sheets (in
fact, after the scan every field is present, so failure happens exactly on a
zero value); when all three are non-zero the extraction succeeds with the
scanned data, regardless of the remaining fields' values. -/
theorem c2_required_fields (wb : List Sheet) (h : wb ≠ []) :
    ((∃ e, extract_project_data wb = Except.error e) ↔
      ((scanWorkbook wb).get FKey.npv = some 0 ∨ (scanWorkbook wb).get FKey.irr = some 0 ∨
        (scanWorkbook wb).get FKey.payback_period = some 0))
    ∧ (∀ e, extract_project_data wb = Except.error e →
        e = extractionErrorMsg (missingFields (scanWorkbook wb)) ∧
          missingFields (scanWorkbook wb) ≠ [])
    ∧ (((scanWorkbook wb).get FKey.npv ≠ some 0 ∧ (scanWorkbook wb).get FKey.irr ≠ some 0 ∧
        (scanWorkbook wb).get FKey.payback_period ≠ some 0) →
        extract_project_data wb = Except.ok (scanWorkbook wb)) := by
  have hmiss : ∀ k : FKey, isMissing ((scanWorkbook wb).get k) = true ↔
      (scanWorkbook wb).get k = some 0 := by
    intro k
    have hk := scanWorkbook_all wb h k
    cases hg : (scanWorkbook wb).get k with
    | none => rw [hg] at hk; simp at hk
    | some v => simp [isMissing]
  have hset : missingFields (scanWorkbook wb) = [] ↔
      ¬((scanWorkbook wb).get FKey.npv = some 0 ∨ (scanWorkbook wb).get FKey.irr = some 0 ∨
        (scanWorkbook wb).get FKey.payback_period = some 0) := by
    have hnpv := hmiss FKey.npv
    have hirr := hmiss FKey.irr
    have hpb := hmiss FKey.payback_period
    rcases Bool.eq_false_or_eq_true (isMissing ((scanWorkbook wb).get FKey.npv)) with h1 | h1 <;>
      rcases Bool.eq_false_or_eq_true (isMissing ((scanWorkbook wb).get FKey.irr)) with h2 | h2 <;>
      rcases Bool.eq_false_or_eq_true
        (isMissing ((scanWorkbook wb).get FKey.payback_period)) with h3 | h3 <;>
      rw [h1] at hnpv <;> rw [h2] at hirr <;> rw [h3] at hpb <;>
      simp [missingFields, requiredFields, List.filter, h1, h2, h3, ← hnpv, ← hirr, ← hpb]
  unfold extract_project_data
  by_cases hm : missingFields (scanWorkbook wb) = []
  · rw [if_pos hm]
    refine ⟨?_, ?_, fun _ => rfl⟩
    · constructor
      · rintro ⟨e, he⟩
        simp at he
      · intro hcontra
        exact absurd hcontra (hset.mp hm)
    · intro e he
      simp at he
  · rw [if_neg hm]
    refine ⟨?_, ?_, ?_⟩
    · constructor
      · intro _
        by_contra hno
        exact hm (hset.mpr hno)
      · intro _
        exact ⟨_, rfl⟩
    · intro e he
      have hmsg : extractionErrorMsg (missingFields (scanWorkbook wb)) = e := by
        injection he
      exact ⟨hmsg.symm, hm⟩
    · intro ⟨h1, h2, h3⟩
      exact absurd (hset.mpr (by tauto)) hm

/-- Workbook for the C2 witness: one sheet resolving npv, irr and
payback_period to non-zero values while every other numeric field stays at its
0 default. -/
def c2workbook : List Sheet :=
  [[[CellVal.str "npv", CellVal.num 5, CellVal.str "irr", CellVal.num 7,
     CellVal.str "окупаемость", CellVal.num 3]]]

/-- Witness for C2: on `c2workbook` the three required fields are non-zero and
extraction succeeds, although capex, construction_years, debt_share, debt_rate
and discount_rate all remain 0. -/
theorem c2_required_fields_witness :
    extract_project_data c2workbook = Except.ok (scanWorkbook c2workbook) :=
  (c2_required_fields c2workbook (by simp [c2workbook])).2.2
    ⟨by decide, by decide, by decide⟩

/-! ## Remote-request seed (src/processors/ai_client.py lines 146-172)

`analyze_risks` derives a deterministic seed from the MD5 hash of the
sorted-key JSON serialization of the rounded inputs.  MD5 is implemented
below over ℕ with explicit reduction modulo 2^32. -/

/-- UTF-8 encoding of one character. -/
def utf8BytesChar (c : Char) : List ℕ :=
  let n := c.toNat
  if n < 128 then [n]
  else if n < 2048 then [192 + n / 64, 128 + n % 64]
  else if n < 65536 then [224 + n / 4096, 128 + (n / 64) % 64, 128 + n % 64]
  else [240 + n / 262144, 128 + (n / 4096) % 64, 128 + (n / 64) % 64, 128 + n % 64]

/-- UTF-8 bytes of a string, as Python's `str.encode()` produces. -/
def strBytes (s : String) : List ℕ := s.toList.bind utf8BytesChar

/-- 2^32. -/
def M32 : ℕ := 4294967296

/-- Left-rotation of a 32-bit word. -/
def rotl32 (x c : ℕ) : ℕ := ((x % M32) * 2 ^ c) % M32 + (x % M32) / 2 ^ (32 - c)

/-- The 64 MD5 sine-derived constants. -/
def md5K : List ℕ :=
  [3614090360, 3905402710, 606105819, 3250441966, 4118548399, 1200080426,
   2821735955, 4249261313, 1770035416, 2336552879, 4294925233, 2304563134,
   1804603682, 4254626195, 2792965006, 1236535329, 4129170786, 3225465664,
   643717713, 3921069994, 3593408605, 38016083, 3634488961, 3889429448,
   568446438, 3275163606, 4107603335, 1163531501, 2850285829, 4243563512,
   1735328473, 2368359562, 4294588738, 2272392833, 1839030562, 4259657740,
   2763975236, 1272893353, 4139469664, 3200236656, 681279174, 3936430074,
   3572445317, 76029189, 3654602809, 3873151461, 530742520, 3299628645,
   4096336452, 1126891415, 2878612391, 4237533241, 1700485571, 2399980690,
   4293915773, 2240044497, 1873313359, 4264355552, 2734768916, 1309151649,
   4149444226, 3174756917, 718787259, 3951481745]

/-- The 64 MD5 per-round shift amounts. -/
def md5S : List ℕ :=
  [7, 12, 17, 22, 7, 12, 17, 22, 7, 12, 17, 22, 7, 12, 17, 22,
   5, 9, 14, 20, 5, 9, 14, 20, 5, 9, 14, 20, 5, 9, 14, 20,
   4, 11, 16, 23, 4, 11, 16, 23, 4, 11, 16, 23, 4, 11, 16, 23,
   6, 10, 15, 21, 6, 10, 15, 21, 6, 10, 15, 21, 6, 10, 15, 21]

/-- Little-endian bytes of a number, fixed width. -/
def leBytes : ℕ → ℕ → List ℕ
  | 0, _ => []
  | k + 1, n => n % 256 :: leBytes k (n / 256)

/-- MD5 padding: append 0x80, zero-fill to 56 mod 64, then the original bit
length as a 64-bit little-endian value. -/
def md5Pad (msg : List ℕ) : List ℕ :=
  msg ++ [128] ++ List.replicate ((56 + 64 - (msg.length + 1) % 64) % 64) 0 ++
    leBytes 8 ((msg.length * 8) % 2 ^ 64)

/-- Split into 64-byte blocks (fuel-driven structural recursion). -/
def chunks64Aux : ℕ → List ℕ → List (List ℕ)
  | 0, _ => []
  | _, [] => []
  | fuel + 1, l => l.take 64 :: chunks64Aux fuel (l.drop 64)

/-- The 64-byte blocks of a padded message. -/
def chunks64 (l : List ℕ) : List (List ℕ) := chunks64Aux l.length l

/-- The `i`-th 32-bit little-endian word of a 64-byte block. -/
def wordAt (chunk : List ℕ) (i : ℕ) : ℕ :=
  (chunk.get? (4 * i)).getD 0 + 256 * (chunk.get? (4 * i + 1)).getD 0 +
    65536 * (chunk.get? (4 * i + 2)).getD 0 + 16777216 * (chunk.get? (4 * i + 3)).getD 0

/-- One of the 64 MD5 rounds on the state (A,B,C,D). -/
def md5Round (w : List ℕ) (st : ℕ × ℕ × ℕ × ℕ) (i : ℕ) : ℕ × ℕ × ℕ × ℕ :=
  let a := st.1
  let b := st.2.1
  let c := st.2.2.1
  let d := st.2.2.2
  let f :=
    if i < 16 then (b &&& c) ||| ((4294967295 ^^^ b) &&& d)
    else if i < 32 then (d &&& b) ||| ((4294967295 ^^^ d) &&& c)
    else if i < 48 then b ^^^ c ^^^ d
    else c ^^^ (b ||| (4294967295 ^^^ d))
  let g :=
    if i < 16 then i
    else if i < 32 then (5 * i + 1) % 16
    else if i < 48 then (3 * i + 5) % 16
    else (7 * i) % 16
  let tmp := (f + a + (md5K.get? i).getD 0 + (w.get? g).getD 0) % M32
  (d, (b + rotl32 tmp ((md5S.get? i).getD 0)) % M32, b, c)

/-- Processing of one 64-byte block. -/
def md5Chunk (st : ℕ × ℕ × ℕ × ℕ) (chunk : List ℕ) : ℕ × ℕ × ℕ × ℕ :=
  let w := (List.range 16).map (wordAt chunk)
  let r := (List.range 64).foldl (md5Round w) st
  ((st.1 + r.1) % M32, (st.2.1 + r.2.1) % M32,
   (st.2.2.1 + r.2.2.1) % M32, (st.2.2.2 + r.2.2.2) % M32)

/-- The 16 digest bytes of a byte message. -/
def md5Digest (msg : List ℕ) : List ℕ :=
  let st := (chunks64 (md5Pad msg)).foldl md5Chunk
    (1732584193, 4023233417, 2562383102, 271733878)
  leBytes 4 st.1 ++ leBytes 4 st.2.1 ++ leBytes 4 st.2.2.1 ++ leBytes 4 st.2.2.2

/-- Lower-case hex digit. -/
def hexDigitChar (n : ℕ) : Char :=
  if n < 10 then Char.ofNat (48 + n) else Char.ofNat (87 + n)

/-- Hex rendering of one byte. -/
def byteHex (b : ℕ) : List Char := [hexDigitChar (b / 16), hexDigitChar (b % 16)]

/-- Model of `hashlib.md5(s.encode()).hexdigest()`. -/
def md5Hex (s : String) : String := String.mk ((md5Digest (strBytes s)).bind byteHex)

/-- Value of a lower-case hex digit. -/
def hexVal (c : Char) : ℕ := if c.isDigit then c.toNat - 48 else c.toNat - 87

/-- Model of `int(h, 16)` on a lower-case hex string given as characters. -/
def hexToNat (l : List Char) : ℕ := l.foldl (fun acc c => acc * 16 + hexVal c) 0

/-- Round-half-to-even of a rational to an integer, as Python `round` behaves
on exact halves, expressed with integer arithmetic. -/
def roundHalfEven (q : ℚ) : ℤ :=
  let n := q.num
  let d : ℤ := (q.den : ℤ)
  let fl := Int.fdiv n d
  let r := n - fl * d
  if 2 * r = d then (if fl % 2 = 0 then fl else fl + 1)
  else if 2 * r < d then fl else fl + 1

/-- Model of Python `round(x, 2)`. -/
def round2 (q : ℚ) : ℚ := mkRat (roundHalfEven (mkRat (q.num * 100) q.den)) 100

/-- JSON rendering of a rounded numeric value (floats print a trailing `.0`
when integral). -/
def jsonNumRender (q : ℚ) : String :=
  if q.den = 1 then toString q.num ++ ".0" else pyNumStr q

/-- JSON string escaping as `json.dumps` with its default `ensure_ascii`
produces for the plain type strings of this code base: non-ASCII characters
become `\uXXXX` escapes. -/
def jsonEscapeChar (c : Char) : List Char :=
  if c.toNat < 128 then [c]
  else '\\' :: 'u' :: [hexDigitChar (c.toNat / 4096 % 16), hexDigitChar (c.toNat / 256 % 16),
    hexDigitChar (c.toNat / 16 % 16), hexDigitChar (c.toNat % 16)]

/-- A JSON string literal. -/
def jsonStr (s : String) : String :=
  "\"" ++ String.mk (s.toList.bind jsonEscapeChar) ++ "\""

/-- The `json.dumps(..., sort_keys=True)` serialization of the normalized
params+results map (ai_client.py lines 148-166): every numeric input rounded
to 2 decimal places, keys in lexicographic order, type appended as a string. -/
def seedDataString (pp mr : List (String × ℚ)) (typ : String) : String :=
  "\x7b\"capex\": " ++ jsonNumRender (round2 (dget pp "capex")) ++
  ", \"construction_years\": " ++ jsonNumRender (round2 (dget pp "construction_years")) ++
  ", \"debt_rate\": " ++ jsonNumRender (round2 (dget pp "debt_rate")) ++
  ", \"debt_share\": " ++ jsonNumRender (round2 (dget pp "debt_share")) ++
  ", \"discount_rate\": " ++ jsonNumRender (round2 (dget pp "discount_rate")) ++
  ", \"irr\": " ++ jsonNumRender (round2 (dget mr "irr")) ++
  ", \"npv\": " ++ jsonNumRender (round2 (dget mr "npv")) ++
  ", \"payback_period\": " ++ jsonNumRender (round2 (dget mr "payback_period")) ++
  ", \"type\": " ++ jsonStr typ ++ "\x7d"

/-- The seed of ai_client.py line 167: the first 8 hex digits of the MD5 of
the serialized data, modulo 2147483647. -/
def computeSeed (pp mr : List (String × ℚ)) (typ : String) : ℕ :=
  hexToNat ((md5Hex (seedDataString pp mr typ)).toList.take 8) % 2147483647

set_option maxRecDepth 40000 in
/-- The MD5 model reproduces the reference digest of "abc" (RFC 1321 test
suite), anchoring the hash used by the seed computation. -/
theorem md5Hex_abc : md5Hex "abc" = "900150983cd24fb0d6963f7d28e17f72" := by decide

/-! ## Claim C8 -/

/-- Claim C8: the remote-request seed is a deterministic function of the
inputs — two calls whose project params and model results agree on type and on
all eight numeric fields after rounding to 2 decimal places produce the same
seed — and the seed is the integer of the first 8 hex digits of the hash of
the sorted-key serialization, taken modulo 2^31-1, hence always within
[0, 2147483646]. -/
theorem c8_seed_deterministic :
    (∀ pp mr typ pp2 mr2 typ2, typ = typ2 →
      round2 (dget pp "capex") = round2 (dget pp2 "capex") →
      round2 (dget pp "construction_years") = round2 (dget pp2 "construction_years") →
      round2 (dget pp "debt_share") = round2 (dget pp2 "debt_share") →
      round2 (dget pp "debt_rate") = round2 (dget pp2 "debt_rate") →
      round2 (dget pp "discount_rate") = round2 (dget pp2 "discount_rate") →
      round2 (dget mr "npv") = round2 (dget mr2 "npv") →
      round2 (dget mr "irr") = round2 (dget mr2 "irr") →
      round2 (dget mr "payback_period") = round2 (dget mr2 "payback_period") →
      computeSeed pp mr typ = computeSeed pp2 mr2 typ2)
    ∧ (∀ pp mr typ,
      computeSeed pp mr typ =
        hexToNat ((md5Hex (seedDataString pp mr typ)).toList.take 8) % 2147483647 ∧
      computeSeed pp mr typ ≤ 2147483646) := by
  constructor
  · intro pp mr typ pp2 mr2 typ2 h0 h1 h2 h3 h4 h5 h6 h7 h8
    unfold computeSeed seedDataString
    rw [h0, h1, h2, h3, h4, h5, h6, h7, h8]
  · intro pp mr typ
    refine ⟨rfl, ?_⟩
    have hlt : computeSeed pp mr typ < 2147483647 :=
      Nat.mod_lt _ (by norm_num)
    omega

/-- Witness for C8: the determinism lemma applied at concrete inputs whose
rounded fields agree. -/
theorem c8_seed_deterministic_witness :
    computeSeed [("capex", 1)] [("npv", 5)] "Метро" =
      computeSeed [("capex", 1)] [("npv", 5)] "Метро" :=
  c8_seed_deterministic.1 [("capex", 1)] [("npv", 5)] "Метро"
    [("capex", 1)] [("npv", 5)] "Метро" rfl rfl rfl rfl rfl rfl rfl rfl rfl
